import Mathlib

/-!
Verification of the WordPress multi-tenant shop-provisioning service
(`src/app.py`) against its natural-language specification.

The Python source is shallowly embedded: pure helpers become Lean
functions on `String`/`List Char`; the Docker side effects of
`provision_multi` become explicit state passing over a `DockerState`
record plus a trace of provisioning steps; the wp-cli invocations of
`setup_shop` become a list of `ShopAction` values; fallible paths
(`HTTPException`, uncaught Python exceptions) become `Except` results.
External collaborators (the container runtime, `polib`, `requests`)
are abstracted as function parameters or `Option`-valued inputs, as
the spec treats them as black boxes.
-/

/-! ### Python string helpers used throughout `app.py` -/

/-- Python's `str.strip()` behaviour on one side: drop matching
characters from the end of a list by reversing, dropping, reversing. -/
def dropWhileEnd (p : Char → Bool) (l : List Char) : List Char :=
  (l.reverse.dropWhile p).reverse

/-- Python's `s.strip(chars)` for a single strip character `c`. -/
def pyStripChar (c : Char) (l : List Char) : List Char :=
  dropWhileEnd (fun d => d == c) (l.dropWhile (fun d => d == c))

/-- Python's `s.strip()` (whitespace at both ends), on `String`. -/
def pyStrip (s : String) : String :=
  String.mk (dropWhileEnd Char.isWhitespace (s.data.dropWhile Char.isWhitespace))

/-- Python's `s.lower()`, restricted to the ASCII case mapping. -/
def pyLower (s : String) : String :=
  String.mk (s.data.map Char.toLower)

/-- Does `s` start with the pattern `pat`? (Python `startswith` on lists.) -/
def listStarts (pat : List Char) (s : List Char) : Bool :=
  match pat, s with
  | [], _ => true
  | _ :: _, [] => false
  | p :: ps, c :: cs => (p == c) && listStarts ps cs

/-- Python's `pat in s` substring test on character lists. -/
def containsSub (pat : List Char) (s : List Char) : Bool :=
  listStarts pat s ||
    match s with
    | [] => false
    | _ :: cs => containsSub pat cs

/-! ### `sanitize_store_name` (src/app.py:117-119)

`re.sub(r"[^a-z0-9]+", "-", name.lower()).strip("-") or "site"`.
The regex substitution replaces every maximal run of characters
outside `[a-z0-9]` by a single `'-'`; `collapseRuns` performs exactly
that, its Boolean argument recording whether we are currently inside
such a run. -/

/-- Characters the regex class `[a-z0-9]` accepts. -/
def isSlugChar (c : Char) : Bool :=
  (('a' ≤ c) && (c ≤ 'z')) || (('0' ≤ c) && (c ≤ '9'))

/-- `re.sub(r"[^a-z0-9]+", "-", ·)`: each maximal run of non-slug
characters becomes one `'-'`. `inRun` is true while inside a run. -/
def collapseRuns (inRun : Bool) : List Char → List Char
  | [] => []
  | c :: rest =>
    if isSlugChar c then c :: collapseRuns false rest
    else if inRun then collapseRuns true rest
    else '-' :: collapseRuns true rest

/-- `sanitize_store_name` from src/app.py:117-119. -/
def sanitize_store_name (name : String) : String :=
  let collapsed := collapseRuns false (pyLower name).data
  let stripped := pyStripChar '-' collapsed
  if stripped.isEmpty then "site" else String.mk stripped

/-- No two adjacent `'-'` characters. -/
def noDoubleDash : List Char → Bool
  | [] => true
  | [_] => true
  | a :: b :: t => !((a == '-') && (b == '-')) && noDoubleDash (b :: t)

/-- The head of a list is a `[a-z0-9]` character (false on `[]`). -/
def headSlug : List Char → Bool
  | [] => false
  | c :: _ => isSlugChar c

/-- The spec's slug well-formedness: nonempty, every character in
`[a-z0-9-]`, first and last characters in `[a-z0-9]` (hence no leading
or trailing separator), and no consecutive separators. -/
def isGoodSlug (s : String) : Bool :=
  headSlug s.data && headSlug s.data.reverse &&
    s.data.all (fun c => isSlugChar c || (c == '-')) && noDoubleDash s.data

/-! Lemmas about `collapseRuns`. -/

theorem collapseRuns_all (b : Bool) (l : List Char) :
    (collapseRuns b l).all (fun c => isSlugChar c || (c == '-')) = true := by
  induction l generalizing b with
  | nil => simp [collapseRuns]
  | cons c rest ih =>
    by_cases h : isSlugChar c = true
    · simp [collapseRuns, h, ih false]
    · by_cases hb : b = true
      · simp [collapseRuns, h, hb, ih true]
      · simp at hb
        simp [collapseRuns, h, hb, ih true]

theorem slugChar_ne_dash (c : Char) (h : isSlugChar c = true) : (c == '-') = false := by
  by_cases hc : c = '-'
  · subst hc; simp [isSlugChar] at h
  · simp [hc]

theorem collapseRuns_true_head (l : List Char) (c : Char) (t : List Char)
    (h : collapseRuns true l = c :: t) : isSlugChar c = true := by
  induction l generalizing c t with
  | nil => simp [collapseRuns] at h
  | cons d rest ih =>
    by_cases hd : isSlugChar d = true
    · simp [collapseRuns, hd] at h
      exact h.1 ▸ hd
    · simp [collapseRuns, hd] at h
      exact ih c t h

theorem noDoubleDash_cons_of_ne (a : Char) (l : List Char)
    (ha : (a == '-') = false) (hl : noDoubleDash l = true) :
    noDoubleDash (a :: l) = true := by
  cases l with
  | nil => rfl
  | cons b t => simp [noDoubleDash, ha] at hl ⊢; exact hl

theorem noDoubleDash_cons_of_head (l : List Char)
    (hl : noDoubleDash l = true)
    (hh : ∀ c t, l = c :: t → (c == '-') = false) :
    noDoubleDash ('-' :: l) = true := by
  cases l with
  | nil => rfl
  | cons b t =>
    simp [noDoubleDash, hh b t rfl] at hl ⊢
    exact hl

theorem collapseRuns_noDoubleDash (b : Bool) (l : List Char) :
    noDoubleDash (collapseRuns b l) = true := by
  induction l generalizing b with
  | nil => rfl
  | cons c rest ih =>
    by_cases h : isSlugChar c = true
    · simp only [collapseRuns, h, if_pos]
      exact noDoubleDash_cons_of_ne c _ (slugChar_ne_dash c h) (ih false)
    · by_cases hb : b = true
      · simpa [collapseRuns, h, hb] using ih true
      · simp at hb
        simp only [collapseRuns, h, hb, if_neg, if_false, Bool.false_eq_true]
        refine noDoubleDash_cons_of_head _ (ih true) ?_
        intro d t hdt
        exact slugChar_ne_dash d (collapseRuns_true_head rest d t hdt)

/-! `noDoubleDash` is closed under contiguous sublists. -/

theorem noDoubleDash_tail (a : Char) (l : List Char)
    (h : noDoubleDash (a :: l) = true) : noDoubleDash l = true := by
  cases l with
  | nil => rfl
  | cons b t => simp [noDoubleDash] at h; exact h.2

theorem noDoubleDash_append_right (l₁ l₂ : List Char)
    (h : noDoubleDash (l₁ ++ l₂) = true) : noDoubleDash l₂ = true := by
  induction l₁ with
  | nil => simpa using h
  | cons a t ih => exact ih (noDoubleDash_tail a _ h)

theorem noDoubleDash_append_left (l₁ l₂ : List Char)
    (h : noDoubleDash (l₁ ++ l₂) = true) : noDoubleDash l₁ = true := by
  induction l₁ with
  | nil => rfl
  | cons a t ih =>
    cases t with
    | nil => rfl
    | cons b u =>
      simp only [List.cons_append, noDoubleDash, Bool.and_eq_true] at h ⊢
      exact ⟨h.1, ih h.2⟩

theorem dropWhile_suffix_exists (p : Char → Bool) (l : List Char) :
    ∃ u, l = u ++ l.dropWhile p := by
  induction l with
  | nil => exact ⟨[], rfl⟩
  | cons a t ih =>
    by_cases hp : p a = true
    · obtain ⟨u, hu⟩ := ih
      exact ⟨a :: u, by simp only [List.dropWhile, hp]; exact congrArg (a :: ·) hu⟩
    · exact ⟨[], by simp [List.dropWhile, hp]⟩

theorem noDoubleDash_dropWhile (p : Char → Bool) (l : List Char)
    (h : noDoubleDash l = true) : noDoubleDash (l.dropWhile p) = true := by
  obtain ⟨u, hu⟩ := dropWhile_suffix_exists p l
  exact noDoubleDash_append_right u _ (hu ▸ h)

theorem dropWhile_head_false (p : Char → Bool) (l : List Char) (c : Char)
    (t : List Char) (h : l.dropWhile p = c :: t) : p c = false := by
  induction l with
  | nil => simp [List.dropWhile] at h
  | cons a rest ih =>
    rw [List.dropWhile_cons] at h
    cases hp : p a with
    | true =>
      rw [hp] at h
      simp only [if_true] at h
      exact ih h
    | false =>
      rw [hp] at h
      simp only [Bool.false_eq_true, if_false] at h
      obtain ⟨h1, _⟩ := List.cons.injEq .. ▸ h
      exact h1 ▸ hp

theorem dropWhileEnd_prefix_exists (p : Char → Bool) (l : List Char) :
    ∃ u, l = dropWhileEnd p l ++ u := by
  obtain ⟨u, hu⟩ := dropWhile_suffix_exists p l.reverse
  refine ⟨u.reverse, ?_⟩
  have := congrArg List.reverse hu
  simpa [dropWhileEnd] using this

theorem dropWhileEnd_reverse (p : Char → Bool) (l : List Char) :
    (dropWhileEnd p l).reverse = l.reverse.dropWhile p := by
  simp [dropWhileEnd]

/-- Stripping `'-'` from both ends of a list whose characters all lie
in `[a-z0-9-]` and which has no adjacent dashes yields either the
empty list or a well-formed slug body. -/
theorem pyStripChar_good (collapsed : List Char)
    (hall : collapsed.all (fun c => isSlugChar c || (c == '-')) = true)
    (hndd : noDoubleDash collapsed = true) :
    pyStripChar '-' collapsed = [] ∨
      (headSlug (pyStripChar '-' collapsed) = true ∧
       headSlug (pyStripChar '-' collapsed).reverse = true ∧
       (pyStripChar '-' collapsed).all (fun c => isSlugChar c || (c == '-')) = true ∧
       noDoubleDash (pyStripChar '-' collapsed) = true) := by
  cases hre : pyStripChar '-' collapsed with
  | nil => exact Or.inl rfl
  | cons c t =>
    refine Or.inr ?_
    have hfronteq : pyStripChar '-' collapsed
        = dropWhileEnd (fun d => d == '-') (collapsed.dropWhile (fun d => d == '-')) := rfl
    obtain ⟨v, hv⟩ := dropWhileEnd_prefix_exists (fun d => d == '-')
        (collapsed.dropWhile (fun d => d == '-'))
    rw [← hfronteq, hre] at hv
    obtain ⟨u, hu⟩ := dropWhile_suffix_exists (fun d => d == '-') collapsed
    have hallf : (collapsed.dropWhile (fun d => d == '-')).all
        (fun c => isSlugChar c || (c == '-')) = true := by
      rw [hu, List.all_append, Bool.and_eq_true] at hall
      exact hall.2
    have hallr : ((c :: t).all (fun c => isSlugChar c || (c == '-'))) = true := by
      rw [hv, List.all_append, Bool.and_eq_true] at hallf
      exact hallf.1
    have hcnd : ((fun d => d == '-') c) = false := by
      refine dropWhile_head_false (fun d => d == '-') collapsed c (t ++ v) ?_
      rw [hv]
      simp
    have hchead : isSlugChar c = true := by
      rw [List.all_cons, Bool.and_eq_true] at hallr
      have := hallr.1
      simpa [hcnd] using this
    have hlast : headSlug (c :: t).reverse = true := by
      have hrev : (c :: t).reverse
          = (collapsed.dropWhile (fun d => d == '-')).reverse.dropWhile (fun d => d == '-') := by
        rw [← hre, hfronteq]
        exact dropWhileEnd_reverse _ _
      cases hrr : (c :: t).reverse with
      | nil => simp at hrr
      | cons d t' =>
        have hnd : ((fun d => d == '-') d) = false :=
          dropWhile_head_false _ _ d t' (hrev ▸ hrr)
        have hdm : d ∈ c :: t := by
          have hmem : d ∈ (c :: t).reverse := by
            rw [hrr]
            exact List.mem_cons_self d t'
          exact List.mem_reverse.mp hmem
        have hdor : (isSlugChar d || (d == '-')) = true := by
          rw [List.all_eq_true] at hallr
          simpa using hallr d hdm
        have hds : isSlugChar d = true := by simpa [hnd] using hdor
        simp [headSlug, hds]

    have hnddr : noDoubleDash (c :: t) = true := by
      have h2 : noDoubleDash (collapsed.dropWhile (fun d => d == '-')) = true :=
        noDoubleDash_dropWhile _ collapsed hndd
      exact noDoubleDash_append_left (c :: t) v (hv ▸ h2)
    exact ⟨by simp [headSlug, hchead], hlast, hallr, hnddr⟩

/-- C1: `sanitize_store_name` is total and deterministic; for every
input it yields a nonempty slug over `[a-z0-9-]` with no leading,
trailing, or consecutive separators (an empty normalization falls back
to `"site"`), and on the two spec examples it yields `"my-shop-2024"`
and `"site"` respectively. -/
theorem sanitize_store_name_spec :
    (∀ name : String, isGoodSlug (sanitize_store_name name) = true) ∧
    sanitize_store_name "My  Shop!! 2024" = "my-shop-2024" ∧
    sanitize_store_name "###" = "site" := by
  refine ⟨?_, by decide, by decide⟩
  intro name
  have hdef : sanitize_store_name name
      = if (pyStripChar '-' (collapseRuns false (pyLower name).data)).isEmpty then "site"
        else String.mk (pyStripChar '-' (collapseRuns false (pyLower name).data)) := rfl
  rw [hdef]
  rcases pyStripChar_good (collapseRuns false (pyLower name).data)
      (collapseRuns_all false (pyLower name).data)
      (collapseRuns_noDoubleDash false (pyLower name).data) with h | ⟨h1, h2, h3, h4⟩
  · rw [h]
    decide
  · have hne : pyStripChar '-' (collapseRuns false (pyLower name).data) ≠ [] := by
      intro hc
      rw [hc] at h1
      simp [headSlug] at h1
    have hie : (pyStripChar '-' (collapseRuns false (pyLower name).data)).isEmpty = false := by
      cases hx : pyStripChar '-' (collapseRuns false (pyLower name).data) with
      | nil => exact absurd hx hne
      | cons a b => simp [List.isEmpty]
    rw [hie]
    simp only [Bool.false_eq_true, if_false]
    unfold isGoodSlug
    simp only [String.data]
    rw [h1, h2, h3, h4]
    rfl

/-! ### `run_wp_cli` (src/app.py:145-156)

The container's `exec_run` is abstracted as a function from the
command string to an exit code plus raw output. `run_wp_cli` logs the
command, logs the output at a level chosen by the exit code, and
returns the decoded output unconditionally — it has no failure path. -/

structure ExecResult where
  exit_code : Int
  output : String
deriving DecidableEq, Repr

inductive LogLevel where
  | info
  | error
deriving DecidableEq, Repr

/-- `run_wp_cli` from src/app.py:145-156, returning the decoded output
together with the log records it emits. -/
def run_wp_cli (exec : String → ExecResult) (cmd : String) : String × List (LogLevel × String) :=
  let result := exec cmd
  let output := result.output
  let logs :=
    [(LogLevel.info, "▶ Running: " ++ cmd)] ++
      (if result.exit_code ≠ 0 then [(LogLevel.error, "❌ Error: " ++ output)]
       else [(LogLevel.info, "✔ Output: " ++ pyStrip output)])
  (output, logs)

/-! ### `wait_for_mysql` (src/app.py:122-142)

The probe inside the Python loop is abstracted as `probe : Nat → Bool`
giving the outcome of a probe at a given elapsed time. Each loop
iteration probes once and sleeps 3 time units, so probes happen at
elapsed times `0, 3, 6, …` while the elapsed time is below the
timeout: `(timeout + 2) / 3` attempts in total. -/

/-- One probe per iteration at the current elapsed time, then advance
the clock by the fixed 3-unit sleep; `attempts` counts the remaining
loop iterations. -/
def waitLoop (probe : Nat → Bool) : Nat → Nat → Bool
  | _, 0 => false
  | elapsed, attempts + 1 =>
    if probe elapsed then true else waitLoop probe (elapsed + 3) attempts

/-- `wait_for_mysql` from src/app.py:122-142: poll at a 3-unit
interval until success or until the timeout (default 120) elapses. -/
def wait_for_mysql (probe : Nat → Bool) (timeout : Nat := 120) : Bool :=
  waitLoop probe 0 ((timeout + 2) / 3)

/-! ### `provision_multi` (src/app.py:231-291)

The Docker daemon's state is the set of existing networks and
containers, by name. `networks.get`/`containers.get` raising
`NotFound` corresponds to a name being absent; the `create`/`run`
calls add the name. The wp-cli work after the containers exist is
recorded in the step trace. -/

def SHARED_NETWORK : String := "shared_net_shop"
def SHARED_DB_NAME : String := "shared_db_shop"
def SHARED_WP_NAME : String := "shared_wp_shop"

structure DockerState where
  networks : List String
  containers : List String
deriving DecidableEq, Repr

structure ShopRequest where
  site_name : String
  email : String
  tenant_mode : String
  theme : String
  locale : String
  wp_image : String
  mysql_image : String
deriving DecidableEq, Repr

inductive ProvStep where
  | network_create
  | db_create (image : String)
  | wp_create (image : String)
  | ensure_wp_cli
  | ensure_network_core
  | enable_rewrite
  | site_create (slug : String)
deriving DecidableEq, Repr

/-- Get-or-create for the shared bridge network (src/app.py:236-239). -/
def netStep (s : DockerState) : DockerState :=
  if SHARED_NETWORK ∈ s.networks then s
  else { s with networks := SHARED_NETWORK :: s.networks }

/-- Trace of the network get-or-create: a create happens only when the
name was absent. -/
def netTrace (s : DockerState) : List ProvStep :=
  if SHARED_NETWORK ∈ s.networks then [] else [ProvStep.network_create]

/-- Get-or-create for the shared MySQL container (src/app.py:242-257). -/
def dbStep (s : DockerState) : DockerState :=
  if SHARED_DB_NAME ∈ s.containers then s
  else { s with containers := SHARED_DB_NAME :: s.containers }

def dbTrace (image : String) (s : DockerState) : List ProvStep :=
  if SHARED_DB_NAME ∈ s.containers then [] else [ProvStep.db_create image]

/-- Get-or-create for the shared WordPress container (src/app.py:262-279). -/
def wpStep (s : DockerState) : DockerState :=
  if SHARED_WP_NAME ∈ s.containers then s
  else { s with containers := SHARED_WP_NAME :: s.containers }

def wpTrace (image : String) (s : DockerState) : List ProvStep :=
  if SHARED_WP_NAME ∈ s.containers then [] else [ProvStep.wp_create image]

/-- `provision_multi` from src/app.py:231-291. Returns the trace of
steps that ran, and either the HTTP error status raised or the final
Docker state together with the provisioned site's slug and URL. The
MySQL readiness gate sits between the database and WordPress
get-or-creates, exactly as in the source. -/
def provision_multi (probe : Nat → Bool) (req : ShopRequest) (s : DockerState) :
    List ProvStep × Except Nat (DockerState × String × String) :=
  let store_name := sanitize_store_name req.site_name
  let s1 := netStep s
  let s2 := dbStep s1
  if wait_for_mysql probe 120 then
    let s3 := wpStep s2
    (netTrace s ++ dbTrace req.mysql_image s1 ++ wpTrace req.wp_image s2 ++
       [ProvStep.ensure_wp_cli, ProvStep.ensure_network_core, ProvStep.enable_rewrite,
        ProvStep.site_create store_name],
     Except.ok (s3, store_name, "http://localhost:8080/" ++ store_name))
  else
    (netTrace s ++ dbTrace req.mysql_image s1, Except.error 500)

/-- C7: the command runner returns the decoded output for every exit
status of the executed command — it never raises — and logs the
command text and the output, with the log level chosen by the exit
code. -/
theorem run_wp_cli_never_raises (exec : String → ExecResult) (cmd : String) :
    (run_wp_cli exec cmd).1 = (exec cmd).output ∧
    (run_wp_cli exec cmd).2 =
      [(LogLevel.info, "▶ Running: " ++ cmd)] ++
        (if (exec cmd).exit_code ≠ 0 then [(LogLevel.error, "❌ Error: " ++ (exec cmd).output)]
         else [(LogLevel.info, "✔ Output: " ++ pyStrip (exec cmd).output)]) := by
  constructor
  · rfl
  · rfl

/-! Step-function lemmas for the provisioning state machine. -/

theorem netStep_mem (s : DockerState) : SHARED_NETWORK ∈ (netStep s).networks := by
  unfold netStep
  split
  · assumption
  · exact List.mem_cons_self _ _

theorem netStep_containers (s : DockerState) : (netStep s).containers = s.containers := by
  unfold netStep
  split <;> rfl

theorem netStep_id (s : DockerState) (h : SHARED_NETWORK ∈ s.networks) : netStep s = s := by
  simp [netStep, h]

theorem netTrace_nil (s : DockerState) (h : SHARED_NETWORK ∈ s.networks) : netTrace s = [] := by
  simp [netTrace, h]

theorem dbStep_mem (s : DockerState) : SHARED_DB_NAME ∈ (dbStep s).containers := by
  unfold dbStep
  split
  · assumption
  · exact List.mem_cons_self _ _

theorem dbStep_networks (s : DockerState) : (dbStep s).networks = s.networks := by
  unfold dbStep
  split <;> rfl

theorem dbStep_mem_mono (s : DockerState) (x : String) (h : x ∈ s.containers) :
    x ∈ (dbStep s).containers := by
  unfold dbStep
  split
  · exact h
  · exact List.mem_cons_of_mem _ h

theorem dbStep_id (s : DockerState) (h : SHARED_DB_NAME ∈ s.containers) : dbStep s = s := by
  simp [dbStep, h]

theorem dbTrace_nil (image : String) (s : DockerState) (h : SHARED_DB_NAME ∈ s.containers) :
    dbTrace image s = [] := by
  simp [dbTrace, h]

theorem wpStep_mem (s : DockerState) : SHARED_WP_NAME ∈ (wpStep s).containers := by
  unfold wpStep
  split
  · assumption
  · exact List.mem_cons_self _ _

theorem wpStep_networks (s : DockerState) : (wpStep s).networks = s.networks := by
  unfold wpStep
  split <;> rfl

theorem wpStep_mem_mono (s : DockerState) (x : String) (h : x ∈ s.containers) :
    x ∈ (wpStep s).containers := by
  unfold wpStep
  split
  · exact h
  · exact List.mem_cons_of_mem _ h

theorem wpStep_id (s : DockerState) (h : SHARED_WP_NAME ∈ s.containers) : wpStep s = s := by
  simp [wpStep, h]

theorem wpTrace_nil (image : String) (s : DockerState) (h : SHARED_WP_NAME ∈ s.containers) :
    wpTrace image s = [] := by
  simp [wpTrace, h]

/-- After a successful run the final state holds all three shared
resource names. -/
theorem post_state_mem (s : DockerState) :
    SHARED_NETWORK ∈ (wpStep (dbStep (netStep s))).networks ∧
    SHARED_DB_NAME ∈ (wpStep (dbStep (netStep s))).containers ∧
    SHARED_WP_NAME ∈ (wpStep (dbStep (netStep s))).containers := by
  refine ⟨?_, ?_, ?_⟩
  · rw [wpStep_networks, dbStep_networks]
    exact netStep_mem s
  · exact wpStep_mem_mono _ _ (dbStep_mem (netStep s))
  · exact wpStep_mem (dbStep (netStep s))

/-! ### The readiness gate (C4). -/

theorem waitLoop_false (probe : Nat → Bool) (n : Nat) :
    ∀ elapsed, (∀ i, i < n → probe (elapsed + 3 * i) = false) →
      waitLoop probe elapsed n = false := by
  induction n with
  | zero => intro elapsed _; rfl
  | succ m ih =>
    intro elapsed h
    have h0 : probe elapsed = false := by simpa using h 0 (Nat.succ_pos m)
    rw [waitLoop, h0]
    simp only [Bool.false_eq_true, if_false]
    refine ih (elapsed + 3) ?_
    intro i hi
    have hh := h (i + 1) (Nat.succ_lt_succ hi)
    have heq : elapsed + 3 * (i + 1) = elapsed + 3 + 3 * i := by ring
    rw [heq] at hh
    exact hh

/-- If the probe never succeeds before the 120-unit timeout, the
prober reports failure. -/
theorem wait_for_mysql_never (probe : Nat → Bool)
    (h : ∀ t, t < 120 → probe t = false) : wait_for_mysql probe 120 = false := by
  unfold wait_for_mysql
  refine waitLoop_false probe ((120 + 2) / 3) 0 ?_
  intro i hi
  refine h (0 + 3 * i) ?_
  omega

/-- C4: when the database readiness probe (3-unit interval, 120-unit
timeout) never succeeds, provisioning returns a 500 server error and
neither the WordPress container creation, the wp-cli bootstrap, the
multisite network install, nor the tenant site creation is attempted. -/
theorem provision_multi_db_timeout (probe : Nat → Bool) (req : ShopRequest)
    (s : DockerState) (h : ∀ t, t < 120 → probe t = false) :
    (provision_multi probe req s).2 = Except.error 500 ∧
    ProvStep.ensure_wp_cli ∉ (provision_multi probe req s).1 ∧
    ProvStep.ensure_network_core ∉ (provision_multi probe req s).1 ∧
    (∀ img, ProvStep.wp_create img ∉ (provision_multi probe req s).1) ∧
    (∀ sl, ProvStep.site_create sl ∉ (provision_multi probe req s).1) := by
  have hw : wait_for_mysql probe 120 = false := wait_for_mysql_never probe h
  have hform : provision_multi probe req s =
      (netTrace s ++ dbTrace req.mysql_image (netStep s), Except.error 500) := by
    simp [provision_multi, hw]
  rw [hform]
  refine ⟨rfl, ?_, ?_, ?_, ?_⟩ <;>
    (simp only [List.mem_append, netTrace, dbTrace]
     split <;> split <;> simp)

/-- Witness for C4 at a concrete never-ready probe, request and empty
Docker state. -/
theorem provision_multi_db_timeout_witness :
    (provision_multi (fun _ => false)
        ⟨"My  Shop!! 2024", "admin@example.com", "multi", "woostify", "en_US",
         "wordpress:6.7-php8.2-apache", "mysql:5.7"⟩ ⟨[], []⟩).2 = Except.error 500 ∧
    ProvStep.ensure_wp_cli ∉ (provision_multi (fun _ => false)
        ⟨"My  Shop!! 2024", "admin@example.com", "multi", "woostify", "en_US",
         "wordpress:6.7-php8.2-apache", "mysql:5.7"⟩ ⟨[], []⟩).1 ∧
    ProvStep.ensure_network_core ∉ (provision_multi (fun _ => false)
        ⟨"My  Shop!! 2024", "admin@example.com", "multi", "woostify", "en_US",
         "wordpress:6.7-php8.2-apache", "mysql:5.7"⟩ ⟨[], []⟩).1 ∧
    (∀ img, ProvStep.wp_create img ∉ (provision_multi (fun _ => false)
        ⟨"My  Shop!! 2024", "admin@example.com", "multi", "woostify", "en_US",
         "wordpress:6.7-php8.2-apache", "mysql:5.7"⟩ ⟨[], []⟩).1) ∧
    (∀ sl, ProvStep.site_create sl ∉ (provision_multi (fun _ => false)
        ⟨"My  Shop!! 2024", "admin@example.com", "multi", "woostify", "en_US",
         "wordpress:6.7-php8.2-apache", "mysql:5.7"⟩ ⟨[], []⟩).1) :=
  provision_multi_db_timeout (fun _ => false) _ _ (fun _ _ => rfl)

/-- Closed form of a successful provisioning run. -/
theorem provision_multi_ok (probe : Nat → Bool) (req : ShopRequest) (s : DockerState)
    (hw : wait_for_mysql probe 120 = true) :
    provision_multi probe req s =
      (netTrace s ++ dbTrace req.mysql_image (netStep s) ++
         wpTrace req.wp_image (dbStep (netStep s)) ++
         [ProvStep.ensure_wp_cli, ProvStep.ensure_network_core, ProvStep.enable_rewrite,
          ProvStep.site_create (sanitize_store_name req.site_name)],
       Except.ok (wpStep (dbStep (netStep s)), sanitize_store_name req.site_name,
         "http://localhost:8080/" ++ sanitize_store_name req.site_name)) := by
  simp [provision_multi, hw]

/-- C8: provisioning a second time with the same shared-instance
identities is idempotent — every get-or-create finds the resource the
first run left behind, so the second run performs no network,
database-container or WordPress-container creation, returns the same
state unchanged, and raises no error. -/
theorem provision_multi_idempotent (probe : Nat → Bool) (req : ShopRequest)
    (s : DockerState) (hw : wait_for_mysql probe 120 = true)
    (s' : DockerState) (slug url : String)
    (h1 : (provision_multi probe req s).2 = Except.ok (s', slug, url)) :
    (provision_multi probe req s').2 = Except.ok (s', slug, url) ∧
    (provision_multi probe req s').1 =
      [ProvStep.ensure_wp_cli, ProvStep.ensure_network_core, ProvStep.enable_rewrite,
       ProvStep.site_create slug] ∧
    ProvStep.network_create ∉ (provision_multi probe req s').1 ∧
    (∀ img, ProvStep.db_create img ∉ (provision_multi probe req s').1) ∧
    (∀ img, ProvStep.wp_create img ∉ (provision_multi probe req s').1) := by
  have hrun := provision_multi_ok probe req s hw
  rw [hrun] at h1
  simp only [Except.ok.injEq, Prod.mk.injEq] at h1
  obtain ⟨hs, hslug, hurl⟩ := h1
  obtain ⟨hn, hd, hwp⟩ := post_state_mem s
  rw [hs] at hn hd hwp
  have hrun2 := provision_multi_ok probe req s' hw
  have hn2 : netStep s' = s' := netStep_id s' hn
  have hd2 : dbStep s' = s' := dbStep_id s' hd
  have hwp2 : wpStep s' = s' := wpStep_id s' hwp
  rw [netTrace_nil s' hn, hn2, dbTrace_nil req.mysql_image s' hd, hd2,
      wpTrace_nil req.wp_image s' hwp, hwp2] at hrun2
  rw [hrun2]
  refine ⟨?_, ?_, ?_, ?_, ?_⟩
  · rw [← hslug, ← hurl]
  · rw [← hslug]
    simp
  · simp
  · intro img
    simp
  · intro img
    simp

/-- Witness for C8: an always-ready probe on an initially empty Docker
state; the first run creates all three resources, the second reuses
them. -/
theorem provision_multi_idempotent_witness :
    (provision_multi (fun _ => true)
        ⟨"My  Shop!! 2024", "admin@example.com", "multi", "woostify", "en_US",
         "wordpress:6.7-php8.2-apache", "mysql:5.7"⟩
        ⟨["shared_net_shop"], ["shared_wp_shop", "shared_db_shop"]⟩).2 =
      Except.ok (⟨["shared_net_shop"], ["shared_wp_shop", "shared_db_shop"]⟩,
        "my-shop-2024", "http://localhost:8080/my-shop-2024") ∧
    (provision_multi (fun _ => true)
        ⟨"My  Shop!! 2024", "admin@example.com", "multi", "woostify", "en_US",
         "wordpress:6.7-php8.2-apache", "mysql:5.7"⟩
        ⟨["shared_net_shop"], ["shared_wp_shop", "shared_db_shop"]⟩).1 =
      [ProvStep.ensure_wp_cli, ProvStep.ensure_network_core, ProvStep.enable_rewrite,
       ProvStep.site_create "my-shop-2024"] ∧
    ProvStep.network_create ∉ (provision_multi (fun _ => true)
        ⟨"My  Shop!! 2024", "admin@example.com", "multi", "woostify", "en_US",
         "wordpress:6.7-php8.2-apache", "mysql:5.7"⟩
        ⟨["shared_net_shop"], ["shared_wp_shop", "shared_db_shop"]⟩).1 ∧
    (∀ img, ProvStep.db_create img ∉ (provision_multi (fun _ => true)
        ⟨"My  Shop!! 2024", "admin@example.com", "multi", "woostify", "en_US",
         "wordpress:6.7-php8.2-apache", "mysql:5.7"⟩
        ⟨["shared_net_shop"], ["shared_wp_shop", "shared_db_shop"]⟩).1) ∧
    (∀ img, ProvStep.wp_create img ∉ (provision_multi (fun _ => true)
        ⟨"My  Shop!! 2024", "admin@example.com", "multi", "woostify", "en_US",
         "wordpress:6.7-php8.2-apache", "mysql:5.7"⟩
        ⟨["shared_net_shop"], ["shared_wp_shop", "shared_db_shop"]⟩).1) :=
  provision_multi_idempotent (fun _ => true) _
    ⟨[], []⟩ rfl _ _ _ rfl

/-! ### `setup_shop` (src/app.py:294-340) and `PAYMENT_LABELS`
(src/app.py:58-87)

Each wp-cli invocation of the shop configurator is recorded as one
`ShopAction`; `option_patch`/`option_update` carry the WordPress
option name the command writes, so one can ask which options the
pipeline ever touches. -/

structure PaymentLabels where
  bacs_title : String
  bacs_instructions : String
  cod_title : String
  cod_instructions : String
  paypal_title : String
deriving DecidableEq, Repr

/-- The four-entry locale table `PAYMENT_LABELS` from src/app.py:58-87. -/
def PAYMENT_LABELS (locale : String) : Option PaymentLabels :=
  if locale = "en_US" then
    some ⟨"Bank Transfer", "Please transfer the amount to our bank account.",
          "Cash on Delivery", "Pay with cash upon delivery.", "PayPal"⟩
  else if locale = "zh_TW" then
    some ⟨"銀行轉帳", "請將款項轉入以下帳號。", "貨到付款", "收到商品後請支付款項。", "PayPal"⟩
  else if locale = "zh_CN" then
    some ⟨"银行转账", "请将款项转入以下账户。", "货到付款", "收到商品后请支付款项。", "贝宝支付"⟩
  else if locale = "zh_HK" then
    some ⟨"銀行轉帳", "請將款項轉入以下賬戶。", "貨到付款", "收到貨品後請支付款項。", "PayPal"⟩
  else none

structure CompanyInfo where
  name : String
  address_1 : String
  address_2 : String
  city : String
  country : String
  postcode : String
  email : String
deriving DecidableEq, Repr

inductive ShopAction where
  | theme_install (theme : String)
  | plugin_install_woocommerce
  | plugin_install_importer
  | wc_install_pages
  | fetch_demo
  | import_demo
  | option_patch (option field value : String)
  | option_update (option : String) (fields : List (String × String))
  | shipping_zone_create (name : String)
  | shipping_add_flat_rate
deriving DecidableEq, Repr

/-- `labels = PAYMENT_LABELS.get(locale, PAYMENT_LABELS["en_US"])`
(src/app.py:309). -/
def labelsFor (locale : String) : PaymentLabels :=
  (PAYMENT_LABELS locale).getD
    ⟨"Bank Transfer", "Please transfer the amount to our bank account.",
     "Cash on Delivery", "Pay with cash upon delivery.", "PayPal"⟩

/-- `paypal_email = company[0].email if (company and company[0].email)
else "paypal@example.com"` (src/app.py:310). -/
def paypalEmailOf (company : Option (List CompanyInfo)) : String :=
  match company with
  | some (c :: _) => if c.email ≠ "" then c.email else "paypal@example.com"
  | _ => "paypal@example.com"

/-- `setup_shop` from src/app.py:294-340, as the ordered list of
configuration actions it performs. -/
def setup_shop (theme locale : String) (company : Option (List CompanyInfo)) :
    List ShopAction :=
  let labels := labelsFor locale
  let paypal_email := paypalEmailOf company
  [ShopAction.theme_install theme,
   ShopAction.plugin_install_woocommerce,
   ShopAction.plugin_install_importer,
   ShopAction.wc_install_pages,
   ShopAction.fetch_demo,
   ShopAction.import_demo,
   ShopAction.option_patch "woocommerce_paypal_settings" "enabled" "yes",
   ShopAction.option_patch "woocommerce_paypal_settings" "title" labels.paypal_title,
   ShopAction.option_patch "woocommerce_paypal_settings" "email" paypal_email,
   ShopAction.option_update "woocommerce_cod_settings"
     [("enabled", "yes"), ("title", labels.cod_title),
      ("instructions", labels.cod_instructions)],
   ShopAction.option_update "woocommerce_bacs_settings"
     [("enabled", "yes"), ("title", labels.bacs_title),
      ("instructions", labels.bacs_instructions)],
   ShopAction.shipping_zone_create "Default Zone",
   ShopAction.shipping_add_flat_rate]

/-- The WordPress option an action writes, if any. -/
def optionWritten : ShopAction → Option String
  | ShopAction.option_patch o _ _ => some o
  | ShopAction.option_update o _ => some o
  | _ => none

/-- Does the pipeline ever write the WooCommerce currency option? -/
def setsCurrency (acts : List ShopAction) : Bool :=
  acts.any (fun a => optionWritten a == some "woocommerce_currency")

/-- C2 counterexample: at locale `en_US` the claim requires the
e-commerce currency option to be set to USD, but `setup_shop` performs
no write to `woocommerce_currency` at all (its only option writes are
the three payment-gateway settings objects). -/
theorem setup_shop_en_US_sets_no_currency :
    setsCurrency (setup_shop "woostify" "en_US" none) = false ∧
    (setup_shop "woostify" "en_US" none).filterMap optionWritten =
      ["woocommerce_paypal_settings", "woocommerce_paypal_settings",
       "woocommerce_paypal_settings", "woocommerce_cod_settings",
       "woocommerce_bacs_settings"] := by
  constructor
  · rfl
  · rfl

/-- C2 amended: for every theme, locale and company record,
`setup_shop` writes no currency option; the locale's only use is to
select payment-gateway display labels from the four-key
`PAYMENT_LABELS` table, falling back to the `en_US` labels for
unmapped locales. -/
theorem setup_shop_no_currency (theme locale : String)
    (company : Option (List CompanyInfo)) :
    setsCurrency (setup_shop theme locale company) = false ∧
    ShopAction.option_patch "woocommerce_paypal_settings" "title"
        (labelsFor locale).paypal_title ∈ setup_shop theme locale company ∧
    (PAYMENT_LABELS locale = none → labelsFor locale = labelsFor "en_US") := by
  refine ⟨?_, ?_, ?_⟩
  · simp [setsCurrency, setup_shop, optionWritten]
  · simp [setup_shop]
  · intro h
    unfold labelsFor
    rw [h]
    rfl

/-- Witness for the amended C2 at an unmapped locale. -/
theorem setup_shop_no_currency_witness :
    setsCurrency (setup_shop "woostify" "fr_FR" none) = false ∧
    ShopAction.option_patch "woocommerce_paypal_settings" "title"
        (labelsFor "fr_FR").paypal_title ∈ setup_shop "woostify" "fr_FR" none ∧
    (PAYMENT_LABELS "fr_FR" = none → labelsFor "fr_FR" = labelsFor "en_US") :=
  setup_shop_no_currency "woostify" "fr_FR" none

/-! ### Translation catalog construction (src/app.py:346-408)

A row of the tabular upload (one `csv.DictReader` row) or one object
of the structured upload carries three optional cells; a missing
column is `none` and Python's truthiness makes the empty string
falsy. The per-row loop shared by `upload_csv` and `upload_json`
appends one `polib.POEntry` for each row whose `"Original"` cell is a
nonempty string. -/

structure Row where
  Original : Option String
  Context : Option String
  Translation : Option String
deriving DecidableEq, Repr

structure POEntry where
  msgid : String
  msgctxt : Option String
  msgstr : String
deriving DecidableEq, Repr

/-- Python truthiness of `row.get(...)`: present and nonempty. -/
def truthyCell : Option String → Bool
  | none => false
  | some s => !(s == "")

/-- The entry built from one accepted row: `msgid = row["Original"]`,
`msgctxt = row.get("Context") or None`,
`msgstr = row.get("Translation") or ""` (src/app.py:357-363). -/
def entryOfRow (r : Row) : POEntry :=
  { msgid := r.Original.getD ""
    msgctxt := match r.Context with
      | some c => if c == "" then none else some c
      | none => none
    msgstr := match r.Translation with
      | some t => t
      | none => "" }

/-- The per-row catalog loop of src/app.py:357-363 (and 390-396). -/
def buildCatalog : List Row → List POEntry
  | [] => []
  | r :: rest =>
    if truthyCell r.Original then entryOfRow r :: buildCatalog rest
    else buildCatalog rest

/-- `upload_csv` from src/app.py:346-375: build the catalog from the
parsed rows and report the entry count (`len(po)`). The PO/MO file
serialization and container copy are side effects carried by the
returned catalog. -/
def upload_csv (rows : List Row) (lang_code : String) : List POEntry × Nat :=
  let po := buildCatalog rows
  (po, po.length)

/-- C5: rows with an empty or missing `"Original"` cell are skipped,
every other row contributes exactly one catalog entry in order, and
the returned entry count equals the number of rows with a nonempty
source string. -/
theorem upload_csv_counts (rows : List Row) (lang_code : String) :
    (upload_csv rows lang_code).1 =
      (rows.filter (fun r => truthyCell r.Original)).map entryOfRow ∧
    (upload_csv rows lang_code).2 =
      (rows.filter (fun r => truthyCell r.Original)).length := by
  have hcat : buildCatalog rows =
      (rows.filter (fun r => truthyCell r.Original)).map entryOfRow := by
    induction rows with
    | nil => rfl
    | cons r rest ih =>
      by_cases h : truthyCell r.Original = true
      · simp [buildCatalog, List.filter, h, ih]
      · simp at h
        simp [buildCatalog, List.filter, h, ih]
  refine ⟨hcat, ?_⟩
  show (buildCatalog rows).length = _
  rw [hcat, List.length_map]

/-! ### `upload_json` (src/app.py:378-408)

`json.load` may raise on undecodable content; that exception is not
caught anywhere in the endpoint, so it is an unhandled server-side
error, not an `HTTPException`. Only a successfully parsed document
that is not a list reaches the explicit
`HTTPException(status_code=400)`. A parsed list may still contain
non-object items, on which `row.get` raises `AttributeError` —
likewise unhandled. -/

inductive JsonItem where
  | obj (r : Row)
  | nonObj
deriving DecidableEq, Repr

/-- The outcome of `json.load(file.file)`: a decode failure, a JSON
array of items, or any other JSON value. -/
inductive JsonDoc where
  | arr (items : List JsonItem)
  | nonArr
deriving DecidableEq, Repr

inductive UploadError where
  | clientError (status : Nat) (detail : String)
  | unhandled (exc : String)
deriving DecidableEq, Repr

/-- The per-item loop of src/app.py:390-396 over a parsed JSON array:
`row.get` on a non-object raises `AttributeError`. -/
def buildCatalogJson : List JsonItem → Except UploadError (List POEntry)
  | [] => Except.ok []
  | JsonItem.nonObj :: _ => Except.error (UploadError.unhandled "AttributeError")
  | JsonItem.obj r :: rest =>
    match buildCatalogJson rest with
    | Except.error e => Except.error e
    | Except.ok tail =>
      Except.ok (if truthyCell r.Original then entryOfRow r :: tail else tail)

/-- `upload_json` from src/app.py:378-408. The argument is the
outcome of `json.load`: `Except.error` when the payload is not
well-formed JSON (the exception text), `Except.ok` with the parsed
document otherwise. A successful return carries the deployed catalog
and the reported entry count; every error return deploys nothing
(the Python raises before any file is written or copied). -/
def upload_json (parsed : Except String JsonDoc) (lang_code : String) :
    Except UploadError (List POEntry × Nat) :=
  match parsed with
  | Except.error e => Except.error (UploadError.unhandled ("JSONDecodeError: " ++ e))
  | Except.ok JsonDoc.nonArr =>
    Except.error (UploadError.clientError 400 "Invalid JSON format")
  | Except.ok (JsonDoc.arr items) =>
    match buildCatalogJson items with
    | Except.error e => Except.error e
    | Except.ok po => Except.ok (po, po.length)

/-- C9 counterexample: a payload that is not well-formed JSON (e.g.
`"{{{"`, on which `json.load` raises) is NOT surfaced as a 400 client
error — the decode exception escapes the handler unhandled. -/
theorem upload_json_malformed_not_client_error :
    upload_json (Except.error "Expecting value") "zh_TW" =
      Except.error (UploadError.unhandled "JSONDecodeError: Expecting value") ∧
    ∀ status detail, upload_json (Except.error "Expecting value") "zh_TW" ≠
      Except.error (UploadError.clientError status detail) := by
  constructor
  · rfl
  · intro status detail h
    simp [upload_json] at h

/-- C9 amended: the explicit 400 client error is raised exactly for
payloads that parse as JSON but are not an array; undecodable payloads
(and arrays containing a non-object item) instead escape as unhandled
exceptions. In every failing case no catalog is deployed (the
function returns no catalog). -/
theorem upload_json_error_classification (parsed : Except String JsonDoc)
    (lang_code : String) :
    ((∃ detail, upload_json parsed lang_code =
        Except.error (UploadError.clientError 400 detail)) ↔
      parsed = Except.ok JsonDoc.nonArr) ∧
    (∀ e, upload_json (Except.error e) lang_code =
      Except.error (UploadError.unhandled ("JSONDecodeError: " ++ e))) := by
  constructor
  · constructor
    · rintro ⟨detail, h⟩
      match parsed with
      | Except.error e => simp [upload_json] at h
      | Except.ok JsonDoc.nonArr => rfl
      | Except.ok (JsonDoc.arr items) =>
        exfalso
        rw [upload_json] at h
        revert h
        cases hb : buildCatalogJson items with
        | error e =>
          have : ∀ l, ∀ e, buildCatalogJson l = Except.error e →
              ∃ exc, e = UploadError.unhandled exc := by
            intro l
            induction l with
            | nil => intro e h; simp [buildCatalogJson] at h
            | cons i rest ih =>
              intro e h
              cases i with
              | nonObj =>
                simp [buildCatalogJson] at h
                exact ⟨"AttributeError", h.symm⟩
              | obj r =>
                rw [buildCatalogJson] at h
                revert h
                cases hr : buildCatalogJson rest with
                | error e2 =>
                  intro h
                  simp at h
                  exact h ▸ ih e2 hr
                | ok tail => intro h; simp at h
          obtain ⟨exc, hexc⟩ := this items e hb
          simp [hexc]
        | ok po => simp
    · intro h
      rw [h]
      exact ⟨"Invalid JSON format", rfl⟩
  · intro e
    rfl

/-- Witness for the amended C9: the 400 case at a concrete non-array
document, plus a concrete decode failure. -/
theorem upload_json_error_classification_witness :
    ((∃ detail, upload_json (Except.ok JsonDoc.nonArr) "en_US" =
        Except.error (UploadError.clientError 400 detail)) ↔
      (Except.ok JsonDoc.nonArr : Except String JsonDoc) = Except.ok JsonDoc.nonArr) ∧
    (∀ e, upload_json (Except.error e) "en_US" =
      Except.error (UploadError.unhandled ("JSONDecodeError: " ++ e))) :=
  upload_json_error_classification (Except.ok JsonDoc.nonArr) "en_US"

/-! ### `download_transcriptions` (src/app.py:429-485)

The three POT sources are abstracted as the outcomes of their I/O:
`gen` is the content read back after `wp i18n make-pot` (`none` when
the exec raised), `remote` is the `requests.get` outcome as a status
code and body (`none` when the request raised), `lcl` is the content
of the bundled `data/woocommerce.pot` (`none` when opening raised).
Python's `if not pot_data` treats the empty string as absent. -/

/-- `"msgid" in s` (src/app.py:444,455). -/
def hasMarker (s : String) : Bool :=
  containsSub "msgid".data s.data

/-- The first stage (src/app.py:436-447): generated content wins only
when its stripped text contains the entry marker. -/
def potFromGen (gen : Option String) : Option String :=
  match gen with
  | some out => if hasMarker (pyStrip out) then some (pyStrip out) else none
  | none => none

/-- The second stage (src/app.py:449-458): the GitHub fetch wins only
with HTTP 200 and marker-containing body. -/
def potFromRemote (remote : Option (Nat × String)) : Option String :=
  match remote with
  | some (status, text) =>
    if status == 200 && hasMarker text then some text else none
  | none => none

/-- The fallback chain of src/app.py:434-468. Returns the POT content
that survives the final `if not pot_data` truthiness check (`none`
means the endpoint raises 500), plus whether the remote fetch and the
local file read were attempted. -/
def download_pot (gen : Option String) (remote : Option (Nat × String))
    (lcl : Option String) : Option String × Bool × Bool :=
  match potFromGen gen with
  | some t => (some t, false, false)
  | none =>
    match potFromRemote remote with
    | some t => (some t, true, false)
    | none =>
      match lcl with
      | some content => (if content == "" then none else some content, true, true)
      | none => (none, true, true)

inductive DownloadResp where
  | csvResp (rows : List (String × String × String))
  | jsonResp (entries : List (String × String × String))
  | httpError (status : Nat)
deriving DecidableEq, Repr

/-- `download_transcriptions` from src/app.py:429-485. `parsePo`
abstracts `polib.pofile`; the response carries each entry's
`(Original, Context, Translation)` with `None` context/translation
rendered as `""` (src/app.py:477,484). Alongside the response the
attempted-source flags of the chain are returned. -/
def download_transcriptions (parsePo : String → List POEntry)
    (gen : Option String) (remote : Option (Nat × String)) (lcl : Option String)
    (output_format : String) : DownloadResp × Bool × Bool :=
  match download_pot gen remote lcl with
  | (none, r, l) => (DownloadResp.httpError 500, r, l)
  | (some t, r, l) =>
    let entries := (parsePo t).map
      (fun e => (e.msgid, e.msgctxt.getD "", e.msgstr))
    if pyLower output_format == "csv" then (DownloadResp.csvResp entries, r, l)
    else (DownloadResp.jsonResp entries, r, l)

/-- C3 counterexample: when generation and the remote fetch both fail,
a local fallback file whose content lacks the entry marker still wins
the chain — the code never marker-checks the local file — so the
claim's "the winning source must yield marker-containing content" is
false. -/
theorem download_pot_local_no_marker_check :
    download_pot none none (some "hello") = (some "hello", true, true) ∧
    hasMarker "hello" = false := by
  constructor
  · rfl
  · rfl

/-- C3 amended: the chain tries generation, then the remote fetch,
then the local file, in that order. Generation wins exactly when its
stripped output contains the marker (then nothing else is attempted);
the remote fetch wins exactly on HTTP 200 with marker-containing body
(then the local file is never read); the local file wins whenever its
read succeeds with nonempty content, with no marker check; and when
every source fails the endpoint returns a 500 server error. -/
theorem download_pot_chain (gen : Option String) (remote : Option (Nat × String))
    (lcl : Option String) :
    (∀ t, potFromGen gen = some t →
      download_pot gen remote lcl = (some t, false, false)) ∧
    (potFromGen gen = none → ∀ t, potFromRemote remote = some t →
      download_pot gen remote lcl = (some t, true, false)) ∧
    (potFromGen gen = none → potFromRemote remote = none →
      download_pot gen remote lcl =
        ((match lcl with
          | some content => if content == "" then none else some content
          | none => none), true, true)) ∧
    (∀ parsePo fmt, (download_pot gen remote lcl).1 = none →
      (download_transcriptions parsePo gen remote lcl fmt).1 =
        DownloadResp.httpError 500) := by
  refine ⟨?_, ?_, ?_, ?_⟩
  · intro t ht
    simp [download_pot, ht]
  · intro hg t hr
    simp [download_pot, hg, hr]
  · intro hg hr
    cases lcl with
    | none => simp [download_pot, hg, hr]
    | some content => simp [download_pot, hg, hr]
  · intro parsePo fmt h
    unfold download_transcriptions
    cases hd : download_pot gen remote lcl with
    | mk pot flags =>
      rw [hd] at h
      simp at h
      rw [h]

/-- Witness for the amended C3: generation fails, the remote fetch
succeeds with a marker-containing body, and the local file is not
read. -/
theorem download_pot_chain_witness :
    download_pot none (some (200, "msgid hi")) (some "unread") =
      (some "msgid hi", true, false) ∧
    (download_transcriptions (fun _ => []) none none none "json").1 =
      DownloadResp.httpError 500 :=
  ⟨(download_pot_chain none (some (200, "msgid hi")) (some "unread")).2.1
      rfl "msgid hi" rfl,
   (download_pot_chain none none none).2.2.2 (fun _ => []) "json" rfl⟩

/-- C10: the export's output-format switch treats exactly the
case-insensitive string `"csv"` as tabular; any other value — not
only the default `"json"` — yields the structured JSON response, not
an error. -/
theorem download_format_dispatch (parsePo : String → List POEntry)
    (gen : Option String) (remote : Option (Nat × String)) (lcl : Option String)
    (output_format : String) (t : String)
    (h : (download_pot gen remote lcl).1 = some t) :
    (pyLower output_format = "csv" →
      (download_transcriptions parsePo gen remote lcl output_format).1 =
        DownloadResp.csvResp
          ((parsePo t).map (fun e => (e.msgid, e.msgctxt.getD "", e.msgstr)))) ∧
    (pyLower output_format ≠ "csv" →
      (download_transcriptions parsePo gen remote lcl output_format).1 =
        DownloadResp.jsonResp
          ((parsePo t).map (fun e => (e.msgid, e.msgctxt.getD "", e.msgstr)))) := by
  unfold download_transcriptions
  cases hd : download_pot gen remote lcl with
  | mk pot flags =>
    rw [hd] at h
    simp only at h
    rw [h]
    constructor
    · intro hfmt
      simp [hfmt]
    · intro hfmt
      have : (pyLower output_format == "csv") = false := by
        simp [hfmt]
      simp [this]

/-- Witness for C10 at an unrecognized format value `"XML"`. -/
theorem download_format_dispatch_witness :
    (pyLower "XML" = "csv" →
      (download_transcriptions (fun _ => []) (some "msgid a") none none "XML").1 =
        DownloadResp.csvResp []) ∧
    (pyLower "XML" ≠ "csv" →
      (download_transcriptions (fun _ => []) (some "msgid a") none none "XML").1 =
        DownloadResp.jsonResp []) :=
  download_format_dispatch (fun _ => []) (some "msgid a") none none "XML"
    "msgid a" rfl

/-! ### `upload_transcriptions` dispatch (src/app.py:488-496)

`file.filename.split(".")[-1].lower()` picks the text after the last
dot (the whole name when there is no dot) and lowercases it; `.csv`
routes to the tabular import, `.json` to the structured import, and
anything else raises a 400 client error before any import work
starts. -/

/-- Python's `s.split(".")`: split on every dot, keeping empty
segments; never returns an empty list. -/
def splitDot : List Char → List (List Char)
  | [] => [[]]
  | c :: rest =>
    if c = '.' then [] :: splitDot rest
    else
      match splitDot rest with
      | [] => [[c]]
      | s :: ss => (c :: s) :: ss

/-- `filename.split(".")[-1].lower()` (src/app.py:491): the last
segment of the dot-split, lowercased. -/
def file_extension (filename : String) : String :=
  String.mk (((splitDot filename.data).getLast?.getD []).map Char.toLower)

inductive UploadRoute where
  | csvImport
  | jsonImport
  | reject400
deriving DecidableEq, Repr

/-- The dispatch of `upload_transcriptions` (src/app.py:488-496). -/
def upload_transcriptions_route (filename : String) : UploadRoute :=
  let ext := file_extension filename
  if ext = "csv" then UploadRoute.csvImport
  else if ext = "json" then UploadRoute.jsonImport
  else UploadRoute.reject400

theorem splitDot_ne_nil (l : List Char) : splitDot l ≠ [] := by
  cases l with
  | nil => simp [splitDot]
  | cons c rest =>
    by_cases h : c = '.'
    · simp [splitDot, h]
    · simp only [splitDot, h, if_false]
      cases splitDot rest with
      | nil => simp
      | cons s ss => simp

theorem splitDot_no_dot (l : List Char) (h : '.' ∉ l) : splitDot l = [l] := by
  induction l with
  | nil => rfl
  | cons c rest ih =>
    have hc : c ≠ '.' := fun hcc => h (hcc ▸ List.mem_cons_self c rest)
    have hrest : '.' ∉ rest := fun hm => h (List.mem_cons_of_mem c hm)
    simp only [splitDot, hc, if_false]
    rw [ih hrest]

/-- Splitting on a dot distributes over an append at that dot. -/
theorem splitDot_append (u v : List Char) :
    splitDot (u ++ '.' :: v) = splitDot u ++ splitDot v := by
  induction u with
  | nil => simp [splitDot]
  | cons c u' ih =>
    by_cases hc : c = '.'
    · subst hc
      rw [List.cons_append]
      show [] :: splitDot (u' ++ '.' :: v) = ([] :: splitDot u') ++ splitDot v
      rw [ih]
      rfl
    · rw [List.cons_append]
      have hl : splitDot (c :: (u' ++ '.' :: v)) =
          match splitDot (u' ++ '.' :: v) with
          | [] => [[c]]
          | s :: ss => (c :: s) :: ss := by
        simp [splitDot, hc]
      have hr : splitDot (c :: u') =
          match splitDot u' with
          | [] => [[c]]
          | s :: ss => (c :: s) :: ss := by
        simp [splitDot, hc]
      rw [hl, hr, ih]
      cases hs : splitDot u' with
      | nil => exact absurd hs (splitDot_ne_nil u')
      | cons s ss => simp

/-- A filename ending in a dot-free suffix after a dot has exactly
that suffix as its Python extension (lowercased). -/
theorem file_extension_of_suffix (u v : List Char) (hv : '.' ∉ v) :
    file_extension (String.mk (u ++ '.' :: v)) = String.mk (v.map Char.toLower) := by
  unfold file_extension
  have hd : (String.mk (u ++ '.' :: v)).data = u ++ '.' :: v := rfl
  rw [hd, splitDot_append, splitDot_no_dot v hv,
      List.getLast?_append_of_ne_nil _ (by simp)]
  rfl

/-- C6: every filename ending in `.csv` routes to the tabular import,
every filename ending in `.json` routes to the structured import, and
every filename whose extension (the lowercased text after the last
dot) is neither `csv` nor `json` is rejected with a 400 client error
before any import runs. -/
theorem upload_transcriptions_dispatch (filename : String) :
    ((∃ u, filename.data = u ++ '.' :: "csv".data) →
      upload_transcriptions_route filename = UploadRoute.csvImport) ∧
    ((∃ u, filename.data = u ++ '.' :: "json".data) →
      upload_transcriptions_route filename = UploadRoute.jsonImport) ∧
    (file_extension filename ≠ "csv" → file_extension filename ≠ "json" →
      upload_transcriptions_route filename = UploadRoute.reject400) := by
  refine ⟨?_, ?_, ?_⟩
  · rintro ⟨u, hu⟩
    have hf : filename = String.mk (u ++ '.' :: "csv".data) := by
      cases filename
      simpa using congrArg String.mk hu
    rw [hf]
    unfold upload_transcriptions_route
    rw [file_extension_of_suffix u "csv".data (by decide)]
    rfl
  · rintro ⟨u, hu⟩
    have hf : filename = String.mk (u ++ '.' :: "json".data) := by
      cases filename
      simpa using congrArg String.mk hu
    rw [hf]
    unfold upload_transcriptions_route
    rw [file_extension_of_suffix u "json".data (by decide)]
    rfl
  · intro h1 h2
    unfold upload_transcriptions_route
    simp [h1, h2]

/-- Witness for C6 at the spec's three example filenames. -/
theorem upload_transcriptions_dispatch_witness :
    upload_transcriptions_route "x.csv" = UploadRoute.csvImport ∧
    upload_transcriptions_route "x.json" = UploadRoute.jsonImport ∧
    upload_transcriptions_route "x.txt" = UploadRoute.reject400 :=
  ⟨(upload_transcriptions_dispatch "x.csv").1 ⟨"x".data, by decide⟩,
   (upload_transcriptions_dispatch "x.json").2.1 ⟨"x".data, by decide⟩,
   (upload_transcriptions_dispatch "x.txt").2.2 (by decide) (by decide)⟩
